import Mathlib

/-!
Verification of the simulated multi-sensor stream generator and recorder of
src/gnss_ins_sim/src/recorder_node_allan_variance_analysis.py.

The embedding uses exact rationals for all numeric samples. The trajectory
simulation engine (ins_sim.Sim) is an external collaborator: it is modelled
as an opaque-to-us bundle of four channel series (SimChannels) that the
generator consumes. The geo-parameter resolver (geoparams.geo_param) is an
external library function whose code is not in the repository; the recorder
is therefore parametric in the gravity magnitude it resolves, and a concrete
model of the resolver, built from the specification, is given separately.
-/

namespace ImuNav

/-- A 3-component numeric sample (gyro, accel or position vector). -/
structure Vec3 where
  x : ℚ
  y : ℚ
  z : ℚ
deriving DecidableEq, Repr

/-- A 4-component attitude quaternion in the simulator ordering q0, q1, q2, q3. -/
structure Quat4 where
  q0 : ℚ
  q1 : ℚ
  q2 : ℚ
  q3 : ℚ
deriving DecidableEq, Repr

/-- The four channel series the trajectory simulator produces, as read back by
get_gnss_ins_sim: sim.dmgr.get_data_all of gyro, accel, ref_pos and
ref_att_quat. -/
structure SimChannels where
  gyro : List Vec3
  accel : List Vec3
  ref_pos : List Vec3
  ref_att_quat : List Quat4
deriving DecidableEq, Repr

/-- One measurement yielded by get_gnss_ins_sim: the stamp together with the
flattened data fields of the yielded dictionary. -/
structure Measurement where
  stamp : ℚ
  gyro_x : ℚ
  gyro_y : ℚ
  gyro_z : ℚ
  accel_x : ℚ
  accel_y : ℚ
  accel_z : ℚ
  ref_pos_x : ℚ
  ref_pos_y : ℚ
  ref_pos_z : ℚ
  q0 : ℚ
  q1 : ℚ
  q2 : ℚ
  q3 : ℚ
deriving DecidableEq, Repr

/-- Four-way zip truncating to the shortest list, as the Python builtin zip
does over the four channel series. -/
def zip4 {α β γ δ : Type} (l1 : List α) (l2 : List β) (l3 : List γ) (l4 : List δ) :
    List (α × β × γ × δ) :=
  (l1.zip (l2.zip (l3.zip l4))).map (fun p => (p.1, p.2.1, p.2.2.1, p.2.2.2))

/-- The dictionary yielded for index i: stamp i * step_size and the flattened
gyro, accel, ref_pos and ref_att_quat components. -/
def mkMeasurement (step_size : ℚ) (i : ℕ) (g a p : Vec3) (q : Quat4) : Measurement :=
  { stamp := (i : ℚ) * step_size
    gyro_x := g.x
    gyro_y := g.y
    gyro_z := g.z
    accel_x := a.x
    accel_y := a.y
    accel_z := a.z
    ref_pos_x := p.x
    ref_pos_y := p.y
    ref_pos_z := p.z
    q0 := q.q0
    q1 := q.q1
    q2 := q.q2
    q3 := q.q3 }

/-- The generator get_gnss_ins_sim, modelled on the channel series the external
simulation engine returns: step_size = 1 / fs_imu, then one yielded
measurement per index of the four-way zip of gyro, accel, ref_pos and
ref_att_quat, enumerated from 0. -/
def get_gnss_ins_sim (fs_imu : ℚ) (s : SimChannels) : List Measurement :=
  let step_size := 1 / fs_imu
  (zip4 s.gyro s.accel s.ref_pos s.ref_att_quat).enum.map
    (fun p => mkMeasurement step_size p.1 p.2.1 p.2.2.1 p.2.2.2.1 p.2.2.2.2)

/-- The inertial-measurement message (sensor_msgs Imu) fields the recorder
fills in: header stamp, orientation, angular velocity, linear acceleration. -/
structure ImuMsg where
  stamp : ℚ
  orientation_x : ℚ
  orientation_y : ℚ
  orientation_z : ℚ
  orientation_w : ℚ
  angular_velocity_x : ℚ
  angular_velocity_y : ℚ
  angular_velocity_z : ℚ
  linear_acceleration_x : ℚ
  linear_acceleration_y : ℚ
  linear_acceleration_z : ℚ
deriving DecidableEq, Repr

/-- The pose message (nav_msgs Odometry) fields the recorder fills in: header
stamp, pose position and pose orientation. -/
structure OdomMsg where
  stamp : ℚ
  position_x : ℚ
  position_y : ℚ
  position_z : ℚ
  orientation_x : ℚ
  orientation_y : ℚ
  orientation_z : ℚ
  orientation_w : ℚ
deriving DecidableEq, Repr

/-- The mutable state of the recorder loop: the idx flag and the captured
origin components x_ori, y_ori, z_ori. Before the first record idx = 0 and
the origin components are uninitialized; they are given here as 0 and are
never read while idx = 0, matching the Python control flow. -/
structure RecState where
  idx : ℕ
  x_ori : ℚ
  y_ori : ℚ
  z_ori : ℚ
deriving DecidableEq, Repr

/-- One iteration of the recorder loop body: capture the origin when idx = 0,
build the Odometry message from the origin-relative position and the
quaternion, resolve gravity on the origin-relative position through the
supplied resolver gravity_of (modelling geo_param applied to
[rpx, rpy, rpz] and read at index 2), and build the Imu message with the
gravity-corrected vertical acceleration. Returns the updated state and the
two messages written to the bag for this measurement. -/
def recordStep (gravity_of : Vec3 → ℚ) (timestamp_start : ℚ)
    (st : RecState) (m : Measurement) : RecState × OdomMsg × ImuMsg :=
  let st1 := if st.idx = 0 then
    { idx := 1, x_ori := m.ref_pos_x, y_ori := m.ref_pos_y, z_ori := m.ref_pos_z }
  else st
  let msg_pos : OdomMsg :=
    { stamp := timestamp_start + m.stamp
      position_x := m.ref_pos_x - st1.x_ori
      position_y := m.ref_pos_y - st1.y_ori
      position_z := m.ref_pos_z - st1.z_ori
      orientation_x := m.q0
      orientation_y := m.q1
      orientation_z := m.q2
      orientation_w := m.q3 }
  let rpx := m.ref_pos_x - st1.x_ori
  let rpy := m.ref_pos_y - st1.y_ori
  let rpz := m.ref_pos_z - st1.z_ori
  let g := gravity_of ⟨rpx, rpy, rpz⟩
  let msg : ImuMsg :=
    { stamp := timestamp_start + m.stamp
      orientation_x := m.q0
      orientation_y := m.q1
      orientation_z := m.q2
      orientation_w := m.q3
      angular_velocity_x := m.gyro_x
      angular_velocity_y := m.gyro_y
      angular_velocity_z := m.gyro_z
      linear_acceleration_x := m.accel_x
      linear_acceleration_y := m.accel_y
      linear_acceleration_z := m.accel_z + g }
  (st1, msg_pos, msg)

/-- The recorder loop over the yielded measurements, threading the idx/origin
state through recordStep and collecting the message pair of each record. -/
def recordLoop (gravity_of : Vec3 → ℚ) (timestamp_start : ℚ) :
    RecState → List Measurement → List (OdomMsg × ImuMsg)
  | _, [] => []
  | st, m :: rest =>
    let r := recordStep gravity_of timestamp_start st m
    r.2 :: recordLoop gravity_of timestamp_start r.1 rest

/-- The recorder gnss_ins_sim_recorder, restricted to its core loop: starting
from idx = 0 with uninitialized origin, convert every yielded measurement
into its Odometry and Imu message pair. timestamp_start models the
rospy.Time.now base added to every header stamp. -/
def gnss_ins_sim_recorder (gravity_of : Vec3 → ℚ) (timestamp_start : ℚ)
    (ms : List Measurement) : List (OdomMsg × ImuMsg) :=
  recordLoop gravity_of timestamp_start ⟨0, 0, 0, 0⟩ ms

/-- The full pipeline of the node: run the generator on the channel series the
simulation engine produced, then the recorder loop over its measurements. -/
def run_pipeline (gravity_of : Vec3 → ℚ) (timestamp_start fs_imu : ℚ)
    (s : SimChannels) : List (OdomMsg × ImuMsg) :=
  gnss_ins_sim_recorder gravity_of timestamp_start (get_gnss_ins_sim fs_imu s)

/-- The message pair the loop body produces once the origin (ox, oy, oz) is
fixed: closed form of recordStep after origin capture, used to state and
prove the per-record properties. -/
def emitWith (gravity_of : Vec3 → ℚ) (timestamp_start ox oy oz : ℚ)
    (m : Measurement) : OdomMsg × ImuMsg :=
  ({ stamp := timestamp_start + m.stamp
     position_x := m.ref_pos_x - ox
     position_y := m.ref_pos_y - oy
     position_z := m.ref_pos_z - oz
     orientation_x := m.q0
     orientation_y := m.q1
     orientation_z := m.q2
     orientation_w := m.q3 },
   { stamp := timestamp_start + m.stamp
     orientation_x := m.q0
     orientation_y := m.q1
     orientation_z := m.q2
     orientation_w := m.q3
     angular_velocity_x := m.gyro_x
     angular_velocity_y := m.gyro_y
     angular_velocity_z := m.gyro_z
     linear_acceleration_x := m.accel_x
     linear_acceleration_y := m.accel_y
     linear_acceleration_z := m.accel_z +
       gravity_of ⟨m.ref_pos_x - ox, m.ref_pos_y - oy, m.ref_pos_z - oz⟩ })

/-- The geo parameters the resolver returns; only the gravity magnitude, read
at index 2 by the recorder, is consumed by the core. -/
structure GeoParams where
  gravity : ℚ
deriving DecidableEq, Repr

/-- Modelled from the spec: the geo-parameter resolver geoparams.geo_param is
imported from the external gnss_ins_sim library and its code is not under
src/. The spec gives its contract: resolve(position: 3-vector) into a record
holding the local gravity magnitude, a deterministic pure function of the
position with no internal state, latitude/altitude dependent, never raising
on any finite input (degenerate coordinates may yield a best-effort value).
The model computes a latitude/altitude dependent gravity magnitude with a
clamped rational surrogate for the squared sine of latitude; the Option
result embeds the possibility of a raised error, which occurs exactly when
the guarded denominator degenerates (it never does over the rationals). -/
def geo_param (pos : Vec3) : Option GeoParams :=
  let den := 1 + pos.x ^ 2
  if den = 0 then none
  else some { gravity :=
    (9780325 / 1000000) * (1 + (1931853 / 1000000000) * (pos.x ^ 2 / den))
      - (3086 / 10000000) * pos.z }

/-- Concrete channels for scenario B of the spec: gyro and accel series of
length 1000, position and attitude series of length 10. -/
def scenarioB : SimChannels :=
  { gyro := List.replicate 1000 ⟨0, 0, 0⟩
    accel := List.replicate 1000 ⟨0, 0, 0⟩
    ref_pos := List.replicate 10 ⟨0, 0, 0⟩
    ref_att_quat := List.replicate 10 ⟨1, 0, 0, 0⟩ }

/-- Concrete channels for scenario A of the spec: two samples on every
channel, consumed at fs_imu = 100. -/
def scenarioA : SimChannels :=
  { gyro := [⟨1, 2, 3⟩, ⟨4, 5, 6⟩]
    accel := [⟨0, 0, 1⟩, ⟨0, 0, 2⟩]
    ref_pos := [⟨0, 0, 0⟩, ⟨5, 0, 0⟩]
    ref_att_quat := [⟨1, 0, 0, 0⟩, ⟨0, 1, 0, 0⟩] }

/-- Channels that are ragged within the IMU-rate pair: the gyro series has two
samples while the accel series has one, and the reference series have two. -/
def raggedChannels : SimChannels :=
  { gyro := [⟨1, 1, 1⟩, ⟨2, 2, 2⟩]
    accel := [⟨3, 3, 3⟩]
    ref_pos := [⟨0, 0, 0⟩, ⟨1, 0, 0⟩]
    ref_att_quat := [⟨1, 0, 0, 0⟩, ⟨1, 0, 0, 0⟩] }

/-- Channels whose gyro series is empty. -/
def emptyGyroChannels : SimChannels :=
  { gyro := []
    accel := [⟨3, 3, 3⟩]
    ref_pos := [⟨0, 0, 0⟩]
    ref_att_quat := [⟨1, 0, 0, 0⟩] }

/-- A concrete measurement with the raw accelerometer sample of scenario D of
the spec: accel = (0.1, 0.2, 9.7). -/
def scenarioDMeasurement : Measurement :=
  { stamp := 0
    gyro_x := 0, gyro_y := 0, gyro_z := 0
    accel_x := 1 / 10, accel_y := 2 / 10, accel_z := 97 / 10
    ref_pos_x := 0, ref_pos_y := 0, ref_pos_z := 0
    q0 := 1, q1 := 0, q2 := 0, q3 := 0 }

/-- A second concrete measurement, with a nonzero absolute position so that
the origin-relative position differs from the absolute one. -/
def witnessMeasurement1 : Measurement :=
  { stamp := 1 / 100
    gyro_x := 7, gyro_y := 8, gyro_z := 9
    accel_x := 1, accel_y := 2, accel_z := 3
    ref_pos_x := 101, ref_pos_y := 0, ref_pos_z := 0
    q0 := 1, q1 := 2, q2 := 3, q3 := 4 }

/-- A concrete first measurement with a nonzero absolute position, serving as
the origin for witnessMeasurement1. -/
def witnessMeasurement0 : Measurement :=
  { stamp := 0
    gyro_x := 1, gyro_y := 2, gyro_z := 3
    accel_x := 4, accel_y := 5, accel_z := 6
    ref_pos_x := 100, ref_pos_y := 0, ref_pos_z := 0
    q0 := 5, q1 := 6, q2 := 7, q3 := 8 }

theorem zip4_length {α β γ δ : Type} (l1 : List α) (l2 : List β) (l3 : List γ) (l4 : List δ) :
    (zip4 l1 l2 l3 l4).length =
      min l1.length (min l2.length (min l3.length l4.length)) := by
  simp [zip4]

theorem length_get_gnss_ins_sim (fs_imu : ℚ) (s : SimChannels) :
    (get_gnss_ins_sim fs_imu s).length =
      min s.gyro.length (min s.accel.length (min s.ref_pos.length s.ref_att_quat.length)) := by
  simp [get_gnss_ins_sim, zip4_length]

theorem zip4_getElem {α β γ δ : Type} (l1 : List α) (l2 : List β) (l3 : List γ) (l4 : List δ)
    (i : ℕ) (h : i < (zip4 l1 l2 l3 l4).length)
    (h1 : i < l1.length) (h2 : i < l2.length) (h3 : i < l3.length) (h4 : i < l4.length) :
    (zip4 l1 l2 l3 l4)[i] = (l1[i], l2[i], l3[i], l4[i]) := by
  simp [zip4]

theorem get_gnss_ins_sim_getElem (fs_imu : ℚ) (s : SimChannels) (i : ℕ)
    (h : i < (get_gnss_ins_sim fs_imu s).length)
    (h1 : i < s.gyro.length) (h2 : i < s.accel.length)
    (h3 : i < s.ref_pos.length) (h4 : i < s.ref_att_quat.length) :
    (get_gnss_ins_sim fs_imu s)[i] =
      mkMeasurement (1 / fs_imu) i s.gyro[i] s.accel[i] s.ref_pos[i] s.ref_att_quat[i] := by
  have hz : i < (zip4 s.gyro s.accel s.ref_pos s.ref_att_quat).length := by
    rw [zip4_length]; omega
  simp only [get_gnss_ins_sim, List.getElem_map, List.getElem_enum,
    zip4_getElem _ _ _ _ i hz h1 h2 h3 h4]

theorem get_gnss_ins_sim_bounds (fs_imu : ℚ) (s : SimChannels) (i : ℕ)
    (h : i < (get_gnss_ins_sim fs_imu s).length) :
    i < s.gyro.length ∧ i < s.accel.length ∧ i < s.ref_pos.length ∧
      i < s.ref_att_quat.length := by
  rw [length_get_gnss_ins_sim] at h
  omega

theorem recordStep_of_idx_ne (gravity_of : Vec3 → ℚ) (timestamp_start : ℚ)
    (st : RecState) (m : Measurement) (h : st.idx ≠ 0) :
    recordStep gravity_of timestamp_start st m =
      (st, emitWith gravity_of timestamp_start st.x_ori st.y_ori st.z_ori m) := by
  simp [recordStep, emitWith, h]

theorem recordStep_of_idx_zero (gravity_of : Vec3 → ℚ) (timestamp_start : ℚ)
    (st : RecState) (m : Measurement) (h : st.idx = 0) :
    recordStep gravity_of timestamp_start st m =
      (⟨1, m.ref_pos_x, m.ref_pos_y, m.ref_pos_z⟩,
        emitWith gravity_of timestamp_start m.ref_pos_x m.ref_pos_y m.ref_pos_z m) := by
  simp [recordStep, emitWith, h]

theorem recordLoop_of_idx_ne (gravity_of : Vec3 → ℚ) (timestamp_start : ℚ)
    (st : RecState) (h : st.idx ≠ 0) (ms : List Measurement) :
    recordLoop gravity_of timestamp_start st ms =
      ms.map (emitWith gravity_of timestamp_start st.x_ori st.y_ori st.z_ori) := by
  induction ms with
  | nil => rfl
  | cons m rest ih =>
    rw [recordLoop, recordStep_of_idx_ne gravity_of timestamp_start st m h]
    simp [ih]

theorem recorder_cons (gravity_of : Vec3 → ℚ) (timestamp_start : ℚ)
    (m : Measurement) (rest : List Measurement) :
    gnss_ins_sim_recorder gravity_of timestamp_start (m :: rest) =
      (m :: rest).map
        (emitWith gravity_of timestamp_start m.ref_pos_x m.ref_pos_y m.ref_pos_z) := by
  rw [gnss_ins_sim_recorder, recordLoop,
    recordStep_of_idx_zero gravity_of timestamp_start ⟨0, 0, 0, 0⟩ m rfl]
  simp only [List.map_cons]
  rw [recordLoop_of_idx_ne gravity_of timestamp_start
    ⟨1, m.ref_pos_x, m.ref_pos_y, m.ref_pos_z⟩ (by simp) rest]

theorem recorder_length (gravity_of : Vec3 → ℚ) (timestamp_start : ℚ)
    (ms : List Measurement) :
    (gnss_ins_sim_recorder gravity_of timestamp_start ms).length = ms.length := by
  cases ms with
  | nil => rfl
  | cons m rest => rw [recorder_cons]; simp

theorem recorder_getElem (gravity_of : Vec3 → ℚ) (timestamp_start : ℚ)
    (m : Measurement) (rest : List Measurement) (i : ℕ)
    (ho : i < (gnss_ins_sim_recorder gravity_of timestamp_start (m :: rest)).length)
    (hi : i < (m :: rest).length) :
    (gnss_ins_sim_recorder gravity_of timestamp_start (m :: rest))[i] =
      emitWith gravity_of timestamp_start m.ref_pos_x m.ref_pos_y m.ref_pos_z
        (m :: rest)[i] := by
  simp only [List.getElem_of_eq (recorder_cons gravity_of timestamp_start m rest) ho,
    List.getElem_map]

/-- C1: for every simulation output whose gyro and accel series have equal
length and whose position and attitude-quaternion series have equal length,
the sequence of records emitted by the generator has length exactly
min(length of the gyro series, length of the position series). -/
theorem C1_emitted_length (fs_imu : ℚ) (s : SimChannels)
    (hga : s.gyro.length = s.accel.length)
    (hpq : s.ref_pos.length = s.ref_att_quat.length) :
    (get_gnss_ins_sim fs_imu s).length = min s.gyro.length s.ref_pos.length := by
  rw [length_get_gnss_ins_sim, ← hga, ← hpq]
  omega

/-- Witness for C1 on scenario B: gyro and accel series of length 1000,
position and attitude series of length 10, yielding exactly 10 records. -/
theorem C1_emitted_length_witness :
    scenarioB.gyro.length = scenarioB.accel.length ∧
    scenarioB.ref_pos.length = scenarioB.ref_att_quat.length ∧
    (get_gnss_ins_sim 100 scenarioB).length = min scenarioB.gyro.length scenarioB.ref_pos.length ∧
    (get_gnss_ins_sim 100 scenarioB).length = 10 := by
  have hga : scenarioB.gyro.length = scenarioB.accel.length := by
    simp only [scenarioB, List.length_replicate]
  have hpq : scenarioB.ref_pos.length = scenarioB.ref_att_quat.length := by
    simp only [scenarioB, List.length_replicate]
  have h := C1_emitted_length 100 scenarioB hga hpq
  refine ⟨hga, hpq, h, ?_⟩
  rw [h]
  simp only [scenarioB, List.length_replicate]
  omega

/-- C9: with no length precondition at all, the generator emits exactly
min(gyro length, accel length, position length, quaternion length) records:
a shorter accel series or a shorter attitude-quaternion series truncates the
output just as the gyro and position series do, because the four series are
zipped together. -/
theorem C9_min_of_four (fs_imu : ℚ) (s : SimChannels) :
    (get_gnss_ins_sim fs_imu s).length =
      min s.gyro.length (min s.accel.length (min s.ref_pos.length s.ref_att_quat.length)) :=
  length_get_gnss_ins_sim fs_imu s

/-- C4: the i-th emitted record carries timestamp i / fs_imu exactly, starting
from i = 0, with no cumulative drift (the embedding computes in exact
rational arithmetic, so i * (1 / fs_imu) coincides with i / fs_imu). -/
theorem C4_timestamp_linear (fs_imu : ℚ) (s : SimChannels) (i : ℕ)
    (h : i < (get_gnss_ins_sim fs_imu s).length) :
    (get_gnss_ins_sim fs_imu s)[i].stamp = (i : ℚ) / fs_imu := by
  obtain ⟨h1, h2, h3, h4⟩ := get_gnss_ins_sim_bounds fs_imu s i h
  rw [get_gnss_ins_sim_getElem fs_imu s i h h1 h2 h3 h4]
  simp only [mkMeasurement, one_div]
  rw [div_eq_mul_inv]

/-- Witness for C4 on scenario A: two samples on every channel at
fs_imu = 100 give timestamps 0 and 1/100. -/
theorem C4_timestamp_linear_witness :
    1 < (get_gnss_ins_sim 100 scenarioA).length ∧
    (get_gnss_ins_sim 100 scenarioA)[0].stamp = 0 ∧
    (get_gnss_ins_sim 100 scenarioA)[1].stamp = 1 / 100 := by
  have h1 : 1 < (get_gnss_ins_sim 100 scenarioA).length := by
    rw [length_get_gnss_ins_sim]
    simp [scenarioA]
  have h0 : 0 < (get_gnss_ins_sim 100 scenarioA).length := by omega
  refine ⟨h1, ?_, ?_⟩
  · have h := C4_timestamp_linear 100 scenarioA 0 h0
    simpa using h
  · have h := C4_timestamp_linear 100 scenarioA 1 h1
    simpa using h

/-- Counterexample to C7 as stated: on channels that are ragged within the
IMU-rate pair (gyro has two samples, accel has one), the generator does not
fail fast and does not refuse to emit: it silently truncates and emits one
complete record. -/
theorem C7_counterexample :
    raggedChannels.gyro.length ≠ raggedChannels.accel.length ∧
    (get_gnss_ins_sim 100 raggedChannels).length = 1 ∧
    get_gnss_ins_sim 100 raggedChannels ≠ [] := by
  have hlen : (get_gnss_ins_sim 100 raggedChannels).length = 1 := by
    rw [length_get_gnss_ins_sim]
    simp [raggedChannels]
  refine ⟨by simp [raggedChannels], hlen, ?_⟩
  intro hnil
  rw [hnil] at hlen
  simp at hlen

/-- C7 (amended): the generator performs no input validation and never fails:
an empty channel series yields zero records, ragged lengths silently
truncate the output to the shortest series, and every record it does emit is
complete (the emitted count always equals the four-way minimum, so no
partial record exists). -/
theorem C7_amended_no_failfast (fs_imu : ℚ) (s : SimChannels) :
    (s.gyro = [] ∨ s.accel = [] ∨ s.ref_pos = [] ∨ s.ref_att_quat = [] →
      get_gnss_ins_sim fs_imu s = []) ∧
    (get_gnss_ins_sim fs_imu s).length =
      min s.gyro.length (min s.accel.length (min s.ref_pos.length s.ref_att_quat.length)) := by
  refine ⟨?_, length_get_gnss_ins_sim fs_imu s⟩
  intro h
  have hz : (get_gnss_ins_sim fs_imu s).length = 0 := by
    rw [length_get_gnss_ins_sim]
    rcases h with h | h | h | h <;> simp [h]
  exact List.length_eq_zero.mp hz

/-- Witness for C7 (amended): an empty gyro series yields no records, and the
ragged channels above yield exactly one record. -/
theorem C7_amended_no_failfast_witness :
    get_gnss_ins_sim 100 emptyGyroChannels = [] ∧
    (get_gnss_ins_sim 100 raggedChannels).length = 1 := by
  refine ⟨(C7_amended_no_failfast 100 emptyGyroChannels).1 (Or.inl rfl), ?_⟩
  rw [(C7_amended_no_failfast 100 raggedChannels).2]
  simp [raggedChannels]

/-- C2: in every emitted inertial-measurement message the linear acceleration
equals the raw accel sample on the x and y axes exactly, and on the z axis
equals the raw sample plus exactly the gravity magnitude the resolver
returns for that record (on its origin-relative position). -/
theorem C2_accel_correction (gravity_of : Vec3 → ℚ) (timestamp_start : ℚ)
    (m0 : Measurement) (rest : List Measurement) (i : ℕ)
    (ho : i < (gnss_ins_sim_recorder gravity_of timestamp_start (m0 :: rest)).length)
    (hi : i < (m0 :: rest).length) :
    ((gnss_ins_sim_recorder gravity_of timestamp_start
        (m0 :: rest))[i]).2.linear_acceleration_x = (m0 :: rest)[i].accel_x ∧
    ((gnss_ins_sim_recorder gravity_of timestamp_start
        (m0 :: rest))[i]).2.linear_acceleration_y = (m0 :: rest)[i].accel_y ∧
    ((gnss_ins_sim_recorder gravity_of timestamp_start
        (m0 :: rest))[i]).2.linear_acceleration_z = (m0 :: rest)[i].accel_z +
      gravity_of ⟨(m0 :: rest)[i].ref_pos_x - m0.ref_pos_x,
        (m0 :: rest)[i].ref_pos_y - m0.ref_pos_y,
        (m0 :: rest)[i].ref_pos_z - m0.ref_pos_z⟩ := by
  rw [recorder_getElem gravity_of timestamp_start m0 rest i ho hi]
  simp [emitWith]

/-- Witness for C2 on scenario D: raw accel sample (0.1, 0.2, 9.7) with a
resolver returning 9.81 yields corrected sample (0.1, 0.2, 19.51). -/
theorem C2_accel_correction_witness :
    0 < (gnss_ins_sim_recorder (fun _ => 981 / 100) 0 [scenarioDMeasurement]).length ∧
    ((gnss_ins_sim_recorder (fun _ => 981 / 100) 0
        [scenarioDMeasurement])[0]).2.linear_acceleration_x = 1 / 10 ∧
    ((gnss_ins_sim_recorder (fun _ => 981 / 100) 0
        [scenarioDMeasurement])[0]).2.linear_acceleration_y = 2 / 10 ∧
    ((gnss_ins_sim_recorder (fun _ => 981 / 100) 0
        [scenarioDMeasurement])[0]).2.linear_acceleration_z = 1951 / 100 := by
  have ho : 0 < (gnss_ins_sim_recorder (fun _ => (981 : ℚ) / 100) 0
      [scenarioDMeasurement]).length := by
    rw [recorder_length]
    simp
  obtain ⟨hx, hy, hz⟩ := C2_accel_correction (fun _ => (981 : ℚ) / 100) 0
    scenarioDMeasurement [] 0 ho (by simp)
  refine ⟨ho, ?_, ?_, ?_⟩
  · rw [hx]
    norm_num [scenarioDMeasurement]
  · rw [hy]
    norm_num [scenarioDMeasurement]
  · rw [hz]
    norm_num [scenarioDMeasurement]

/-- C3: the origin is the reference position of the first measurement,
captured once and never changed: every emitted pose carries the reference
position of its own record minus the reference position of the first
record, component-wise, and the first emitted pose is therefore the zero
vector for any trajectory. -/
theorem C3_origin_once (gravity_of : Vec3 → ℚ) (timestamp_start : ℚ)
    (m0 : Measurement) (rest : List Measurement) (i : ℕ)
    (ho : i < (gnss_ins_sim_recorder gravity_of timestamp_start (m0 :: rest)).length)
    (hi : i < (m0 :: rest).length) :
    (((gnss_ins_sim_recorder gravity_of timestamp_start
        (m0 :: rest))[i]).1.position_x = (m0 :: rest)[i].ref_pos_x - m0.ref_pos_x ∧
      ((gnss_ins_sim_recorder gravity_of timestamp_start
        (m0 :: rest))[i]).1.position_y = (m0 :: rest)[i].ref_pos_y - m0.ref_pos_y ∧
      ((gnss_ins_sim_recorder gravity_of timestamp_start
        (m0 :: rest))[i]).1.position_z = (m0 :: rest)[i].ref_pos_z - m0.ref_pos_z) ∧
    (i = 0 →
      ((gnss_ins_sim_recorder gravity_of timestamp_start
        (m0 :: rest))[i]).1.position_x = 0 ∧
      ((gnss_ins_sim_recorder gravity_of timestamp_start
        (m0 :: rest))[i]).1.position_y = 0 ∧
      ((gnss_ins_sim_recorder gravity_of timestamp_start
        (m0 :: rest))[i]).1.position_z = 0) := by
  rw [recorder_getElem gravity_of timestamp_start m0 rest i ho hi]
  refine ⟨⟨rfl, rfl, rfl⟩, ?_⟩
  rintro rfl
  simp [emitWith]

/-- Witness for C3 on a two-record run starting at absolute position
(100, 0, 0): the first pose is the zero vector and the second pose is the
origin-relative offset (1, 0, 0). -/
theorem C3_origin_once_witness :
    1 < (gnss_ins_sim_recorder (fun _ => 0) 0
      [witnessMeasurement0, witnessMeasurement1]).length ∧
    ((gnss_ins_sim_recorder (fun _ => 0) 0
      [witnessMeasurement0, witnessMeasurement1])[0]).1.position_x = 0 ∧
    ((gnss_ins_sim_recorder (fun _ => 0) 0
      [witnessMeasurement0, witnessMeasurement1])[1]).1.position_x = 1 := by
  have h1 : 1 < (gnss_ins_sim_recorder (fun _ => (0 : ℚ)) 0
      [witnessMeasurement0, witnessMeasurement1]).length := by
    rw [recorder_length]
    simp
  have h0 : 0 < (gnss_ins_sim_recorder (fun _ => (0 : ℚ)) 0
      [witnessMeasurement0, witnessMeasurement1]).length := by omega
  have hz := (C3_origin_once (fun _ => (0 : ℚ)) 0 witnessMeasurement0
    [witnessMeasurement1] 0 h0 (by simp)).2 rfl
  have hone := (C3_origin_once (fun _ => (0 : ℚ)) 0 witnessMeasurement0
    [witnessMeasurement1] 1 h1 (by simp)).1
  refine ⟨h1, hz.1, ?_⟩
  rw [hone.1]
  norm_num [witnessMeasurement0, witnessMeasurement1]

/-- C5: the gravity magnitude of each record is recomputed for that record by
applying the resolver to the origin-relative position of that record (the
very vector emitted as the pose position), not to its absolute position. -/
theorem C5_gravity_from_relative (gravity_of : Vec3 → ℚ) (timestamp_start : ℚ)
    (m0 : Measurement) (rest : List Measurement) (i : ℕ)
    (ho : i < (gnss_ins_sim_recorder gravity_of timestamp_start (m0 :: rest)).length)
    (hi : i < (m0 :: rest).length) :
    ((gnss_ins_sim_recorder gravity_of timestamp_start
        (m0 :: rest))[i]).2.linear_acceleration_z = (m0 :: rest)[i].accel_z +
      gravity_of
        ⟨((gnss_ins_sim_recorder gravity_of timestamp_start (m0 :: rest))[i]).1.position_x,
         ((gnss_ins_sim_recorder gravity_of timestamp_start (m0 :: rest))[i]).1.position_y,
         ((gnss_ins_sim_recorder gravity_of timestamp_start (m0 :: rest))[i]).1.position_z⟩ ∧
    ((gnss_ins_sim_recorder gravity_of timestamp_start
        (m0 :: rest))[i]).1.position_x = (m0 :: rest)[i].ref_pos_x - m0.ref_pos_x ∧
    ((gnss_ins_sim_recorder gravity_of timestamp_start
        (m0 :: rest))[i]).1.position_y = (m0 :: rest)[i].ref_pos_y - m0.ref_pos_y ∧
    ((gnss_ins_sim_recorder gravity_of timestamp_start
        (m0 :: rest))[i]).1.position_z = (m0 :: rest)[i].ref_pos_z - m0.ref_pos_z := by
  rw [recorder_getElem gravity_of timestamp_start m0 rest i ho hi]
  exact ⟨rfl, rfl, rfl, rfl⟩

/-- Witness for C5 with the resolver fun v => v.x on a trajectory running from
absolute x = 100 to x = 101: the second record is corrected by the relative
offset 1 (yielding 3 + 1 = 4), not by the absolute coordinate 101 (which
would yield 104). -/
theorem C5_gravity_from_relative_witness :
    1 < (gnss_ins_sim_recorder (fun v => v.x) 0
      [witnessMeasurement0, witnessMeasurement1]).length ∧
    ((gnss_ins_sim_recorder (fun v => v.x) 0
      [witnessMeasurement0, witnessMeasurement1])[1]).2.linear_acceleration_z = 4 ∧
    ((gnss_ins_sim_recorder (fun v => v.x) 0
      [witnessMeasurement0, witnessMeasurement1])[1]).2.linear_acceleration_z ≠
      witnessMeasurement1.accel_z + witnessMeasurement1.ref_pos_x := by
  have h1 : 1 < (gnss_ins_sim_recorder (fun v : Vec3 => v.x) 0
      [witnessMeasurement0, witnessMeasurement1]).length := by
    rw [recorder_length]
    simp
  obtain ⟨hg, hx, hy, hz⟩ := C5_gravity_from_relative (fun v : Vec3 => v.x) 0
    witnessMeasurement0 [witnessMeasurement1] 1 h1 (by simp)
  have hval : ((gnss_ins_sim_recorder (fun v : Vec3 => v.x) 0
      [witnessMeasurement0, witnessMeasurement1])[1]).2.linear_acceleration_z = 4 := by
    rw [hg, hx]
    norm_num [witnessMeasurement0, witnessMeasurement1]
  refine ⟨h1, hval, ?_⟩
  rw [hval]
  norm_num [witnessMeasurement1]

/-- C10: the four attitude-quaternion components are copied positionally,
q0 to x, q1 to y, q2 to z, q3 to w, identically in the inertial-measurement
message and in the pose message, with no reordering for the simulator
scalar-first convention. -/
theorem C10_quaternion_positional (gravity_of : Vec3 → ℚ) (timestamp_start : ℚ)
    (m0 : Measurement) (rest : List Measurement) (i : ℕ)
    (ho : i < (gnss_ins_sim_recorder gravity_of timestamp_start (m0 :: rest)).length)
    (hi : i < (m0 :: rest).length) :
    ((gnss_ins_sim_recorder gravity_of timestamp_start
        (m0 :: rest))[i]).2.orientation_x = (m0 :: rest)[i].q0 ∧
    ((gnss_ins_sim_recorder gravity_of timestamp_start
        (m0 :: rest))[i]).2.orientation_y = (m0 :: rest)[i].q1 ∧
    ((gnss_ins_sim_recorder gravity_of timestamp_start
        (m0 :: rest))[i]).2.orientation_z = (m0 :: rest)[i].q2 ∧
    ((gnss_ins_sim_recorder gravity_of timestamp_start
        (m0 :: rest))[i]).2.orientation_w = (m0 :: rest)[i].q3 ∧
    ((gnss_ins_sim_recorder gravity_of timestamp_start
        (m0 :: rest))[i]).1.orientation_x = (m0 :: rest)[i].q0 ∧
    ((gnss_ins_sim_recorder gravity_of timestamp_start
        (m0 :: rest))[i]).1.orientation_y = (m0 :: rest)[i].q1 ∧
    ((gnss_ins_sim_recorder gravity_of timestamp_start
        (m0 :: rest))[i]).1.orientation_z = (m0 :: rest)[i].q2 ∧
    ((gnss_ins_sim_recorder gravity_of timestamp_start
        (m0 :: rest))[i]).1.orientation_w = (m0 :: rest)[i].q3 := by
  rw [recorder_getElem gravity_of timestamp_start m0 rest i ho hi]
  exact ⟨rfl, rfl, rfl, rfl, rfl, rfl, rfl, rfl⟩

/-- Witness for C10 on a record with quaternion components (1, 2, 3, 4):
both messages carry orientation (x, y, z, w) = (1, 2, 3, 4). -/
theorem C10_quaternion_positional_witness :
    1 < (gnss_ins_sim_recorder (fun _ => 0) 0
      [witnessMeasurement0, witnessMeasurement1]).length ∧
    ((gnss_ins_sim_recorder (fun _ => 0) 0
      [witnessMeasurement0, witnessMeasurement1])[1]).2.orientation_x = 1 ∧
    ((gnss_ins_sim_recorder (fun _ => 0) 0
      [witnessMeasurement0, witnessMeasurement1])[1]).2.orientation_w = 4 ∧
    ((gnss_ins_sim_recorder (fun _ => 0) 0
      [witnessMeasurement0, witnessMeasurement1])[1]).1.orientation_x = 1 ∧
    ((gnss_ins_sim_recorder (fun _ => 0) 0
      [witnessMeasurement0, witnessMeasurement1])[1]).1.orientation_w = 4 := by
  have h1 : 1 < (gnss_ins_sim_recorder (fun _ : Vec3 => (0 : ℚ)) 0
      [witnessMeasurement0, witnessMeasurement1]).length := by
    rw [recorder_length]
    simp
  obtain ⟨a1, a2, a3, a4, b1, b2, b3, b4⟩ := C10_quaternion_positional
    (fun _ : Vec3 => (0 : ℚ)) 0 witnessMeasurement0 [witnessMeasurement1] 1 h1 (by simp)
  refine ⟨h1, ?_, ?_, ?_, ?_⟩
  · rw [a1]; norm_num [witnessMeasurement1]
  · rw [a4]; norm_num [witnessMeasurement1]
  · rw [b1]; norm_num [witnessMeasurement1]
  · rw [b4]; norm_num [witnessMeasurement1]

/-- C6: every measurement is converted into exactly two messages that share
one timestamp: an inertial-measurement message whose orientation is the
attitude quaternion, whose angular velocity is the raw gyro sample and
whose linear acceleration is the corrected accel, and a pose message whose
position is the origin-relative position and whose orientation is the same
attitude quaternion. -/
theorem C6_two_entities (gravity_of : Vec3 → ℚ) (timestamp_start : ℚ)
    (m0 : Measurement) (rest : List Measurement) (i : ℕ)
    (ho : i < (gnss_ins_sim_recorder gravity_of timestamp_start (m0 :: rest)).length)
    (hi : i < (m0 :: rest).length) :
    (gnss_ins_sim_recorder gravity_of timestamp_start (m0 :: rest)).length =
      (m0 :: rest).length ∧
    ((gnss_ins_sim_recorder gravity_of timestamp_start (m0 :: rest))[i]).2.stamp =
      ((gnss_ins_sim_recorder gravity_of timestamp_start (m0 :: rest))[i]).1.stamp ∧
    ((gnss_ins_sim_recorder gravity_of timestamp_start (m0 :: rest))[i]).2.stamp =
      timestamp_start + (m0 :: rest)[i].stamp ∧
    ((gnss_ins_sim_recorder gravity_of timestamp_start (m0 :: rest))[i]).2 =
      { stamp := timestamp_start + (m0 :: rest)[i].stamp
        orientation_x := (m0 :: rest)[i].q0
        orientation_y := (m0 :: rest)[i].q1
        orientation_z := (m0 :: rest)[i].q2
        orientation_w := (m0 :: rest)[i].q3
        angular_velocity_x := (m0 :: rest)[i].gyro_x
        angular_velocity_y := (m0 :: rest)[i].gyro_y
        angular_velocity_z := (m0 :: rest)[i].gyro_z
        linear_acceleration_x := (m0 :: rest)[i].accel_x
        linear_acceleration_y := (m0 :: rest)[i].accel_y
        linear_acceleration_z := (m0 :: rest)[i].accel_z +
          gravity_of ⟨(m0 :: rest)[i].ref_pos_x - m0.ref_pos_x,
            (m0 :: rest)[i].ref_pos_y - m0.ref_pos_y,
            (m0 :: rest)[i].ref_pos_z - m0.ref_pos_z⟩ } ∧
    ((gnss_ins_sim_recorder gravity_of timestamp_start (m0 :: rest))[i]).1 =
      { stamp := timestamp_start + (m0 :: rest)[i].stamp
        position_x := (m0 :: rest)[i].ref_pos_x - m0.ref_pos_x
        position_y := (m0 :: rest)[i].ref_pos_y - m0.ref_pos_y
        position_z := (m0 :: rest)[i].ref_pos_z - m0.ref_pos_z
        orientation_x := (m0 :: rest)[i].q0
        orientation_y := (m0 :: rest)[i].q1
        orientation_z := (m0 :: rest)[i].q2
        orientation_w := (m0 :: rest)[i].q3 } := by
  rw [recorder_getElem gravity_of timestamp_start m0 rest i ho hi]
  exact ⟨recorder_length gravity_of timestamp_start (m0 :: rest), rfl, rfl, rfl, rfl⟩

/-- Witness for C6 on the second record of a concrete two-record run: the two
messages share the stamp 1/100 and carry the gyro, corrected accel,
relative position and quaternion fields of that record. -/
theorem C6_two_entities_witness :
    1 < (gnss_ins_sim_recorder (fun v => v.x) 0
      [witnessMeasurement0, witnessMeasurement1]).length ∧
    ((gnss_ins_sim_recorder (fun v => v.x) 0
      [witnessMeasurement0, witnessMeasurement1])[1]).2.stamp =
      ((gnss_ins_sim_recorder (fun v => v.x) 0
        [witnessMeasurement0, witnessMeasurement1])[1]).1.stamp ∧
    ((gnss_ins_sim_recorder (fun v => v.x) 0
      [witnessMeasurement0, witnessMeasurement1])[1]).2.stamp = 1 / 100 ∧
    ((gnss_ins_sim_recorder (fun v => v.x) 0
      [witnessMeasurement0, witnessMeasurement1])[1]).2.angular_velocity_x = 7 ∧
    ((gnss_ins_sim_recorder (fun v => v.x) 0
      [witnessMeasurement0, witnessMeasurement1])[1]).1.position_x = 1 := by
  have h1 : 1 < (gnss_ins_sim_recorder (fun v : Vec3 => v.x) 0
      [witnessMeasurement0, witnessMeasurement1]).length := by
    rw [recorder_length]
    simp
  obtain ⟨hlen, hshare, hstamp, himu, hodom⟩ := C6_two_entities (fun v : Vec3 => v.x) 0
    witnessMeasurement0 [witnessMeasurement1] 1 h1 (by simp)
  refine ⟨h1, hshare, ?_, ?_, ?_⟩
  · rw [hstamp]
    norm_num [witnessMeasurement1]
  · rw [himu]
    norm_num [witnessMeasurement1]
  · rw [hodom]
    norm_num [witnessMeasurement0, witnessMeasurement1]

/-- C8: the modelled geo-parameter resolver is a deterministic pure total
function of the position: it returns a value (never a raised error) for
every rational position, and resolving the same position twice yields the
same result, there being no internal state to vary between calls or runs. -/
theorem C8_resolver_total_pure (p : Vec3) :
    (geo_param p).isSome = true ∧ geo_param p = geo_param p := by
  have hden : 1 + p.x ^ 2 ≠ 0 := by positivity
  refine ⟨?_, rfl⟩
  simp [geo_param, hden]

end ImuNav
